import Mathlib

/-!
Verification of the m3upython playlist proxy (src/main.py) against its
natural-language specification.

The development shallowly embeds the pure computational core of
`src/main.py`:

* `is_m3u_content`  — the content validator (lines 47–58);
* `Channel` / `chanOfExtinf` / `parseLoop` / `parse_m3u` — the M3U parser
  (lines 60–113);
* `get_channels_handler` / `proxy_handler` — the request pipelines of the
  `/channels` and `/proxy` endpoints (lines 132–295), with the network
  modelled as an oracle `net : Nat → FetchOutcome` giving the outcome of
  the n-th outbound GET attempt the handler would issue.

Python strings are modelled as `List Char`; `str.splitlines`,
`str.strip`, `str.split(',')` and the three `re.search` attribute
patterns are embedded by executable functions below.  The response
cache described in §4.4 of the spec has no counterpart in src/main.py
and is modelled separately from the spec's words (see `CacheState`).
-/

namespace M3U

/-- `lsw s pat` : `pat` is a leading segment of `s`
(embeds Python `s.startswith(pat)` at a given position). -/
def lsw : List Char → List Char → Bool
  | _, [] => true
  | [], _ :: _ => false
  | a :: as, b :: bs => a == b && lsw as bs

/-- `containsSub s pat` : `pat` occurs contiguously somewhere in `s`
(embeds Python `pat in s`). -/
def containsSub : List Char → List Char → Bool
  | [], pat => lsw [] pat
  | a :: rest, pat => lsw (a :: rest) pat || containsSub rest pat

/-- First line of a character stream: everything before the first newline. -/
def firstLine (cs : List Char) : List Char :=
  cs.takeWhile (fun c => c != '\n')

/-- Split on newline characters, keeping empty segments — the match
positions of Python's `re.MULTILINE` anchor `^` are exactly the starts
of these segments. -/
def splitNl : List Char → List (List Char)
  | [] => [[]]
  | c :: rest =>
    if c = '\n' then [] :: splitNl rest
    else (c :: (splitNl rest).headD []) :: (splitNl rest).tail

def httpPat : List Char := "http://".toList
def httpsPat : List Char := "https://".toList

/-- A character stream begins (at its current position) with `http://`
or `https://` — the alternatives of the regex `https?://`. -/
def httpStart (cs : List Char) : Bool :=
  lsw cs httpPat || lsw cs httpsPat

/-- Match positions strictly after a newline: the recursive part of the
embedding of `re.search(r'^https?://', content, re.MULTILINE)`. -/
def mlAux : List Char → Bool
  | [] => false
  | c :: rest => (c == '\n' && httpStart rest) || mlAux rest

/-- Embeds `bool(re.search(r'^https?://', content, re.MULTILINE))`:
the pattern matches at position 0 or directly after some newline. -/
def mlHttp (cs : List Char) : Bool :=
  httpStart cs || mlAux cs

/-- Embeds `is_m3u_content` (src/main.py lines 47–58): false on empty
input, else `'#EXTINF' in content or '#EXTM3U' in content or
bool(re.search(r'^https?://', content, re.MULTILINE))`. -/
def is_m3u_content (content : String) : Bool :=
  if content.toList = [] then false
  else
    containsSub content.toList "#EXTINF".toList
      || containsSub content.toList "#EXTM3U".toList
      || mlHttp content.toList

/-- Embeds the `Channel` class (src/main.py lines 60–73) with its
constructor defaults: `title = ""`, `logo = None`, `group = ""`
(an `Optional[str]` initialised to the empty string), `url = ""`. -/
structure Channel where
  title : String := ""
  logo : Option String := none
  group : Option String := some ""
  url : String := ""
deriving DecidableEq, Repr

/-- Python whitespace for `str.strip()` (ASCII range). -/
def isPySpace (c : Char) : Bool :=
  c == ' ' || c == '\t' || c == '\n' || c == '\r' || c == '\x0b' || c == '\x0c'

/-- Embeds Python `line.strip()`. -/
def pyStrip (l : List Char) : List Char :=
  ((l.dropWhile isPySpace).reverse.dropWhile isPySpace).reverse

/-- Line-boundary characters of Python `str.splitlines`. -/
def isLineBoundary (c : Char) : Bool :=
  c == '\n' || c == '\r' || c == '\x0b' || c == '\x0c'
    || c == '\x1c' || c == '\x1d' || c == '\x1e' || c == '\x85'
    || c == '\u2028' || c == '\u2029'

/-- Embeds Python `content.splitlines()`: split at every line boundary
(`\r\n` counting as one boundary), without a trailing empty line.
`acc` holds the current line, reversed. -/
def pySplitlines (acc : List Char) : List Char → List (List Char)
  | [] => if acc = [] then [] else [acc.reverse]
  | '\r' :: '\n' :: rest => acc.reverse :: pySplitlines [] rest
  | c :: rest =>
    if isLineBoundary c then acc.reverse :: pySplitlines [] rest
    else pySplitlines (c :: acc) rest

/-- Suffix of `s` following the first occurrence of `pat`, when `pat`
occurs in `s` (the position at which `re.search` anchors a literal). -/
def findAfter (pat : List Char) : List Char → Option (List Char)
  | [] => if lsw [] pat then some [] else none
  | c :: rest =>
    if lsw (c :: rest) pat then some ((c :: rest).drop pat.length)
    else findAfter pat rest

/-- Embeds `re.search(lit + r'"([^"]*)"'`-style patterns such as
`tvg-name="([^"]*)"`: the capture of the first match, if any.  A match
requires the literal `lit` (which ends in `"`), then a closing `"`
further right; the capture is everything up to that quote.  (If the
first occurrence of `lit` is not followed by any `"`, no later
occurrence can be either, since `lit` itself contains `"`.) -/
def reCapture (lit : List Char) (line : List Char) : Option String :=
  match findAfter lit line with
  | none => none
  | some rest =>
    if rest.any (fun c => c == '"') then
      some (String.mk (rest.takeWhile (fun c => c != '"')))
    else none

def tvgNameLit : List Char := "tvg-name=\"".toList
def tvgLogoLit : List Char := "tvg-logo=\"".toList
def groupTitleLit : List Char := "group-title=\"".toList
def extinfPat : List Char := "#EXTINF:".toList

/-- Everything after the last comma of `l` (the whole of `l` when it has
no comma) — embeds Python `line.split(',')[-1]`. -/
def lastAfterComma (l : List Char) : List Char :=
  (l.reverse.takeWhile (fun c => c != ',')).reverse

/-- Embeds the `#EXTINF:` branch of `parse_m3u` (src/main.py lines
85–105): build a fresh `Channel`, set `title` from `tvg-name="…"` or
else from the stripped text after the last comma, set `logo` from
`tvg-logo="…"` when present, set `group` from `group-title="…"` when
present (else it keeps its default `""`). -/
def chanOfExtinf (line : List Char) : Channel :=
  { title :=
      match reCapture tvgNameLit line with
      | some t => t
      | none => String.mk (pyStrip (lastAfterComma line))
    logo := reCapture tvgLogoLit line
    group :=
      match reCapture groupTitleLit line with
      | some g => some g
      | none => some ""
    url := "" }

/-- Embeds the line loop of `parse_m3u` (src/main.py lines 79–111):
strip each line; skip blanks; an `#EXTINF:` line replaces the pending
channel; an `http://`/`https://` line completes the pending channel if
one exists and is ignored otherwise; every other line is skipped. -/
def parseLoop : List (List Char) → Option Channel → List Channel
  | [], _ => []
  | l :: rest, cur =>
    let line := pyStrip l
    if line = [] then parseLoop rest cur
    else if lsw line extinfPat then parseLoop rest (some (chanOfExtinf line))
    else if lsw line httpPat || lsw line httpsPat then
      match cur with
      | some c => { c with url := String.mk line } :: parseLoop rest none
      | none => parseLoop rest cur
    else parseLoop rest cur

/-- Embeds `parse_m3u` (src/main.py lines 75–113). -/
def parse_m3u (content : String) : List Channel :=
  parseLoop (pySplitlines [] content.toList) none

/-- Outcome of one outbound GET attempt (`await client.get(...)`):
either an `httpx.RequestError` with its message, or a response with a
status code and a decoded text body. -/
inductive FetchOutcome where
  | reqError (msg : String)
  | response (status : Nat) (body : String)
deriving DecidableEq, Repr

/-- Response produced by a handler: an `HTTPException`, a `JSONResponse`
error body, the `/channels` JSON result, or the `/proxy` plain-text
body. -/
inductive HandlerResult where
  | httpError (status : Nat) (detail : String)
  | jsonError (status : Nat) (error : String)
  | okChannels (total : Nat) (channels : List Channel)
  | okText (body : String)
deriving DecidableEq, Repr

/-- Embeds the `/channels` handler `get_channels` (src/main.py lines
229–295).  The network is an oracle `net : Nat → FetchOutcome` giving
the outcome of the n-th outbound GET the handler issues; the second
component of the result counts the outbound attempts that were made.
The handler rejects an empty `url` before any fetch, then performs a
single `client.get` (there is no retry loop): a `RequestError` is
caught by the outer handler as a 500 `Request error` JSON body, a
non-200 status is mirrored back as an error, and a 200 body is parsed
with `parse_m3u` and returned with `total = len(channels)`.
(`urllib.parse.unquote` only rewrites the URL given to the oracle and
is irrelevant to these results, so it is not modelled.) -/
def get_channels_handler (url : String) (net : Nat → FetchOutcome) :
    HandlerResult × Nat :=
  if url = "" then (.httpError 400 "URL parameter is required", 0)
  else
    match net 0 with
    | .reqError msg => (.jsonError 500 ("Request error: " ++ msg), 1)
    | .response status body =>
      if status ≠ 200 then
        (.jsonError status ("Target server returned " ++ toString status), 1)
      else
        (.okChannels (parse_m3u body).length (parse_m3u body), 1)

/-- Embeds the `/proxy` handler `proxy` (src/main.py lines 132–227):
same single-attempt fetch, but a 200 body is additionally gated by
`is_m3u_content` — failing the gate yields a 400 `Invalid M3U format`
JSON error, passing it returns the body as plain text. -/
def proxy_handler (url : String) (net : Nat → FetchOutcome) :
    HandlerResult × Nat :=
  if url = "" then (.httpError 400 "URL parameter is required", 0)
  else
    match net 0 with
    | .reqError msg => (.jsonError 500 ("Request failed: " ++ msg), 1)
    | .response status body =>
      if status ≠ 200 then
        (.jsonError status ("Target server returned " ++ toString status), 1)
      else if !is_m3u_content body then
        (.jsonError 400 "Invalid M3U format", 1)
      else
        (.okText body, 1)

/-- A network oracle whose first two attempts fail with a connection
error and whose third attempt succeeds — the scenario of the spec's
fetch-retry property. -/
def failTwiceNet : Nat → FetchOutcome :=
  fun n => if n < 2 then .reqError "connection refused"
           else .response 200 "#EXTM3U\nhttp://x/s"

/-- A network oracle that always fails the way `httpx` fails on a
non-http(s) scheme (`httpx.UnsupportedProtocol`, a `RequestError`). -/
def unsupportedSchemeNet : Nat → FetchOutcome :=
  fun _ => .reqError "Request URL has an unsupported protocol"

/-- A network oracle that always returns HTTP 200 with an empty body. -/
def emptyBodyNet : Nat → FetchOutcome :=
  fun _ => .response 200 ""

/-- The output of one parse pass as reported by `/channels`
(src/main.py lines 274–277): the channel list and `total =
len(channels)`. -/
structure ParseResult where
  channels : List Channel
  total : Nat
deriving DecidableEq, Repr

/-- Embeds the `result` dictionary built at src/main.py lines 274–277. -/
def mkParseResult (content : String) : ParseResult :=
  { channels := parse_m3u content, total := (parse_m3u content).length }

/-- Modelled from the spec: src/main.py contains no response cache at
all — §4.4 of the spec ("Response Cache") describes one keyed by a
digest of the URL with a fixed time-to-live.  A cache state maps keys
to a stored `ParseResult` with its insertion time; §3's CacheEntry
invariant says an entry is visible to lookups only within its
time-to-live window from insertion. -/
def CacheState : Type := String → Option (ParseResult × Nat)

/-- Modelled from the spec (§4.4): `put` stores/overwrites
unconditionally and resets the entry's age. -/
def cachePut (c : CacheState) (k : String) (r : ParseResult) (now : Nat) :
    CacheState :=
  fun q => if q = k then some (r, now) else c q

/-- Modelled from the spec (§4.4): `get` returns the stored result only
while it is within its time-to-live window; once expired it behaves as
absent. -/
def cacheGet (c : CacheState) (k : String) (ttl : Nat) (now : Nat) :
    Option ParseResult :=
  match c k with
  | none => none
  | some (r, t) => if now < t + ttl then some r else none

/-- The empty cache. -/
def cacheEmpty : CacheState := fun _ => none

/-! ### Bridge lemmas: the executable string scans versus
`List.IsPrefix` / `List.IsInfix` -/

theorem lsw_iff (s pat : List Char) : lsw s pat = true ↔ pat <+: s := by
  induction pat generalizing s with
  | nil => simp [lsw, List.nil_prefix]
  | cons b bs ih =>
    cases s with
    | nil => simp [lsw]
    | cons a as =>
      simp only [lsw, Bool.and_eq_true, beq_iff_eq, ih, List.cons_prefix_cons]
      exact and_congr eq_comm Iff.rfl

theorem containsSub_iff (s pat : List Char) :
    containsSub s pat = true ↔ pat <:+: s := by
  induction s with
  | nil =>
    simp [containsSub, lsw_iff, List.prefix_nil, List.infix_nil]
  | cons a as ih =>
    simp [containsSub, lsw_iff, ih, List.infix_cons_iff]

/-! ### The multiline regex `^https?://` is a per-line scan -/

theorem lsw_nil_pat (s : List Char) : lsw s [] = true := by
  cases s <;> rfl

theorem splitNl_ne_nil (cs : List Char) : splitNl cs ≠ [] := by
  cases cs with
  | nil => simp [splitNl]
  | cons c rest =>
    simp only [splitNl]
    split <;> simp

theorem firstLine_cons (c : Char) (rest : List Char) :
    firstLine (c :: rest) = if c = '\n' then [] else c :: firstLine rest := by
  by_cases h : c = '\n' <;> simp [firstLine, List.takeWhile_cons, h]

theorem splitNl_headD (cs : List Char) :
    (splitNl cs).headD [] = firstLine cs := by
  induction cs with
  | nil => rfl
  | cons c rest ih =>
    rw [firstLine_cons]
    by_cases h : c = '\n'
    · subst h; simp [splitNl]
    · rw [if_neg h]
      simp only [splitNl, if_neg h, List.headD_cons]
      rw [ih]

theorem lsw_firstLine :
    ∀ pat : List Char, '\n' ∉ pat →
      ∀ cs, lsw cs pat = lsw (firstLine cs) pat := by
  intro pat
  induction pat with
  | nil => intro _ cs; rw [lsw_nil_pat, lsw_nil_pat]
  | cons b bs ih =>
    intro hpat cs
    have hb : b ≠ '\n' := fun e => hpat (by simp [e])
    have hbs : '\n' ∉ bs := fun m => hpat (List.mem_cons_of_mem _ m)
    cases cs with
    | nil => rfl
    | cons a as =>
      rw [firstLine_cons]
      by_cases h : a = '\n'
      · subst h
        rw [if_pos rfl]
        have hbne : ('\n' == b) = false := beq_eq_false_iff_ne.mpr (Ne.symm hb)
        simp [lsw, hbne]
      · rw [if_neg h]
        simp only [lsw]
        rw [ih hbs as]

theorem httpStart_firstLine (cs : List Char) :
    httpStart (firstLine cs) = httpStart cs := by
  simp only [httpStart]
  rw [← lsw_firstLine httpPat (by decide) cs,
    ← lsw_firstLine httpsPat (by decide) cs]

theorem splitNl_tail_any (cs : List Char) :
    (splitNl cs).tail.any httpStart = mlAux cs := by
  induction cs with
  | nil => rfl
  | cons c rest ih =>
    by_cases h : c = '\n'
    · subst h
      simp only [splitNl, if_pos rfl, List.tail_cons, mlAux]
      rcases hsp : splitNl rest with _ | ⟨l, ls⟩
      · exact absurd hsp (splitNl_ne_nil rest)
      · have hl : l = firstLine rest := by
          have hh := splitNl_headD rest
          rw [hsp] at hh
          simpa using hh
        have h2 : ls.any httpStart = mlAux rest := by
          have ht := ih
          rw [hsp] at ht
          simpa using ht
        have h1 : httpStart l = httpStart rest := by
          rw [hl, httpStart_firstLine]
        simp [List.any_cons, h1, h2]
    · have hcne : (c == '\n') = false := beq_eq_false_iff_ne.mpr h
      simp only [splitNl, if_neg h, List.tail_cons, mlAux]
      rw [ih]
      simp [hcne]

theorem splitNl_any_eq_mlHttp (cs : List Char) :
    (splitNl cs).any httpStart = mlHttp cs := by
  rcases hsp : splitNl cs with _ | ⟨l, ls⟩
  · exact absurd hsp (splitNl_ne_nil cs)
  · have hl : l = firstLine cs := by
      have hh := splitNl_headD cs
      rw [hsp] at hh
      simpa using hh
    have ht : ls.any httpStart = mlAux cs := by
      have h2 := splitNl_tail_any cs
      rw [hsp] at h2
      simpa using h2
    simp only [List.any_cons, mlHttp]
    rw [ht, hl, httpStart_firstLine]

/-! ### Order of emission: the parse loop instrumented with line indices -/

/-- `parseLoop` instrumented with the index of the input line: identical
control flow, but each emitted channel is tagged with the index of the
URL line that completed it. -/
def parseLoopIdx : List (List Char) → Nat → Option Channel → List (Nat × Channel)
  | [], _, _ => []
  | l :: rest, i, cur =>
    let line := pyStrip l
    if line = [] then parseLoopIdx rest (i + 1) cur
    else if lsw line extinfPat then
      parseLoopIdx rest (i + 1) (some (chanOfExtinf line))
    else if lsw line httpPat || lsw line httpsPat then
      match cur with
      | some c => (i, { c with url := String.mk line }) :: parseLoopIdx rest (i + 1) none
      | none => parseLoopIdx rest (i + 1) cur
    else parseLoopIdx rest (i + 1) cur

theorem parseLoopIdx_map_snd (ls : List (List Char)) :
    ∀ (i : Nat) (cur : Option Channel),
      (parseLoopIdx ls i cur).map Prod.snd = parseLoop ls cur := by
  induction ls with
  | nil => intro i cur; rfl
  | cons l rest ih =>
    intro i cur
    simp only [parseLoopIdx, parseLoop]
    by_cases h1 : pyStrip l = []
    · simp [h1, ih]
    · by_cases h2 : lsw (pyStrip l) extinfPat = true
      · simp [h1, h2, ih]
      · by_cases h3 : (lsw (pyStrip l) httpPat || lsw (pyStrip l) httpsPat) = true
        · cases cur with
          | some c => simp [h1, h2, h3, ih]
          | none => simp [h1, h2, h3, ih]
        · simp [h1, h2, h3, ih]

theorem parseLoopIdx_bound (ls : List (List Char)) :
    ∀ (i : Nat) (cur : Option Channel) (p : Nat × Channel),
      p ∈ parseLoopIdx ls i cur → i ≤ p.1 := by
  induction ls with
  | nil => intro i cur p hp; simp [parseLoopIdx] at hp
  | cons l rest ih =>
    intro i cur p hp
    simp only [parseLoopIdx] at hp
    by_cases h1 : pyStrip l = []
    · rw [if_pos h1] at hp
      exact Nat.le_of_succ_le (ih (i + 1) cur p hp)
    · rw [if_neg h1] at hp
      by_cases h2 : lsw (pyStrip l) extinfPat = true
      · rw [if_pos h2] at hp
        exact Nat.le_of_succ_le (ih (i + 1) _ p hp)
      · rw [if_neg h2] at hp
        by_cases h3 : (lsw (pyStrip l) httpPat || lsw (pyStrip l) httpsPat) = true
        · rw [if_pos h3] at hp
          cases cur with
          | none => exact Nat.le_of_succ_le (ih (i + 1) none p hp)
          | some c =>
            rcases List.mem_cons.mp hp with rfl | hmem
            · exact Nat.le_refl i
            · exact Nat.le_of_succ_le (ih (i + 1) none p hmem)
        · rw [if_neg h3] at hp
          exact Nat.le_of_succ_le (ih (i + 1) cur p hp)

theorem parseLoopIdx_pairwise (ls : List (List Char)) :
    ∀ (i : Nat) (cur : Option Channel),
      (parseLoopIdx ls i cur).Pairwise (fun p q => p.1 < q.1) := by
  induction ls with
  | nil => intro i cur; simp [parseLoopIdx]
  | cons l rest ih =>
    intro i cur
    simp only [parseLoopIdx]
    by_cases h1 : pyStrip l = []
    · simpa [h1] using ih (i + 1) cur
    · rw [if_neg h1]
      by_cases h2 : lsw (pyStrip l) extinfPat = true
      · simpa [h2] using ih (i + 1) _
      · rw [if_neg h2]
        by_cases h3 : (lsw (pyStrip l) httpPat || lsw (pyStrip l) httpsPat) = true
        · rw [if_pos h3]
          cases cur with
          | none => exact ih (i + 1) none
          | some c =>
            refine List.pairwise_cons.mpr ⟨?_, ih (i + 1) none⟩
            intro q hq
            exact Nat.lt_of_succ_le (parseLoopIdx_bound rest (i + 1) none q hq)
        · rw [if_neg h3]
          exact ih (i + 1) cur

/-! ### Structural invariants of emitted channels -/

theorem chanOfExtinf_group_ne_none (line : List Char) :
    (chanOfExtinf line).group ≠ none := by
  simp only [chanOfExtinf]
  cases reCapture groupTitleLit line <;> simp

theorem parseLoop_invariant :
    ∀ (ls : List (List Char)) (cur : Option Channel),
      (∀ c, cur = some c → c.group ≠ none) →
      ∀ ch ∈ parseLoop ls cur,
        httpStart ch.url.toList = true ∧ ch.group ≠ none := by
  intro ls
  induction ls with
  | nil => intro cur _ ch hch; simp [parseLoop] at hch
  | cons l rest ih =>
    intro cur hcur ch hch
    simp only [parseLoop] at hch
    by_cases h1 : pyStrip l = []
    · rw [if_pos h1] at hch
      exact ih cur hcur ch hch
    · rw [if_neg h1] at hch
      by_cases h2 : lsw (pyStrip l) extinfPat = true
      · rw [if_pos h2] at hch
        refine ih _ (fun c hc => ?_) ch hch
        cases hc
        exact chanOfExtinf_group_ne_none (pyStrip l)
      · rw [if_neg h2] at hch
        by_cases h3 : (lsw (pyStrip l) httpPat || lsw (pyStrip l) httpsPat) = true
        · rw [if_pos h3] at hch
          cases cur with
          | none => exact ih none (by simp) ch hch
          | some c =>
            rcases List.mem_cons.mp hch with rfl | hmem
            · exact ⟨h3, hcur c rfl⟩
            · exact ih none (by simp) ch hmem
        · rw [if_neg h3] at hch
          exact ih cur hcur ch hch

theorem lsw_head (a b : Char) (as bs : List Char)
    (h : lsw (a :: as) (b :: bs) = true) : a = b := by
  simp only [lsw, Bool.and_eq_true, beq_iff_eq] at h
  exact h.1

/-- A line that starts with `http://` or `https://` does not start with
`#EXTINF:` — the branches of the parser's if-chain are mutually
exclusive here. -/
theorem http_not_extinf (line : List Char)
    (h : (lsw line httpPat || lsw line httpsPat) = true) :
    lsw line extinfPat = false := by
  cases line with
  | nil => simp [lsw, httpPat, httpsPat] at h
  | cons a as =>
    have ha : a = 'h' := by
      rw [Bool.or_eq_true] at h
      rcases h with h1 | h1
      · exact lsw_head a 'h' as "ttp://".toList h1
      · exact lsw_head a 'h' as "ttps://".toList h1
    subst ha
    have hne : ('h' == '#') = false := by decide
    simp [extinfPat, lsw, hne]

theorem lsw_pat_ne_nil (l b : List Char) (c : Char) (cs : List Char)
    (hb : b = c :: cs) (h : lsw l b = true) : l ≠ [] := by
  intro e
  rw [e, hb] at h
  exact absurd h (by simp [lsw])

end M3U

open M3U

/-! ## The claims -/

/-- C1: for every input text, the parser processes lines in order with
at most one pending channel — an `#EXTINF:` line begins a new pending
channel discarding any previous unterminated one (whatever `cur` was);
a URL line completes the pending channel when one exists and is
silently ignored when none exists; consequently
`"#EXTINF:-1,A\n#EXTINF:-1,B\nhttp://x/b"` parses to exactly one
channel titled `B` with url `http://x/b`, and
`"http://x/orphan\n#EXTINF:-1,C\nhttp://x/c"` yields exactly the one
channel `C`. -/
theorem C1_single_pending_channel :
    (∀ (l : List Char) (rest : List (List Char)) (cur : Option Channel),
      lsw (pyStrip l) extinfPat = true →
      parseLoop (l :: rest) cur = parseLoop rest (some (chanOfExtinf (pyStrip l)))) ∧
    (∀ (l : List Char) (rest : List (List Char)) (c : Channel),
      (lsw (pyStrip l) httpPat || lsw (pyStrip l) httpsPat) = true →
      parseLoop (l :: rest) (some c) =
        { c with url := String.mk (pyStrip l) } :: parseLoop rest none) ∧
    (∀ (l : List Char) (rest : List (List Char)),
      (lsw (pyStrip l) httpPat || lsw (pyStrip l) httpsPat) = true →
      parseLoop (l :: rest) none = parseLoop rest none) ∧
    parse_m3u "#EXTINF:-1,A\n#EXTINF:-1,B\nhttp://x/b" =
      [{ title := "B", logo := none, group := some "", url := "http://x/b" }] ∧
    parse_m3u "http://x/orphan\n#EXTINF:-1,C\nhttp://x/c" =
      [{ title := "C", logo := none, group := some "", url := "http://x/c" }] := by
  refine ⟨?_, ?_, ?_, by decide, by decide⟩
  · intro l rest cur h
    have hne : pyStrip l ≠ [] := lsw_pat_ne_nil _ _ '#' "EXTINF:".toList rfl h
    simp only [parseLoop]
    rw [if_neg hne, if_pos h]
  · intro l rest c h
    have hne : pyStrip l ≠ [] := by
      rw [Bool.or_eq_true] at h
      rcases h with h1 | h1
      · exact lsw_pat_ne_nil _ _ 'h' "ttp://".toList rfl h1
      · exact lsw_pat_ne_nil _ _ 'h' "ttps://".toList rfl h1
    have hext : lsw (pyStrip l) extinfPat = false := http_not_extinf _ h
    simp only [parseLoop]
    rw [if_neg hne, if_neg (by simp [hext]), if_pos h]
  · intro l rest h
    have hne : pyStrip l ≠ [] := by
      rw [Bool.or_eq_true] at h
      rcases h with h1 | h1
      · exact lsw_pat_ne_nil _ _ 'h' "ttp://".toList rfl h1
      · exact lsw_pat_ne_nil _ _ 'h' "ttps://".toList rfl h1
    have hext : lsw (pyStrip l) extinfPat = false := http_not_extinf _ h
    simp only [parseLoop]
    rw [if_neg hne, if_neg (by simp [hext]), if_pos h]

/-- Witness for C1 at concrete inputs: an `#EXTINF:` line replaces a
live pending channel, a URL line completes a pending channel, and a URL
line with no pending channel is a no-op. -/
theorem C1_witness :
    parseLoop ["#EXTINF:-1,B".toList] (some { title := "A" }) =
      parseLoop [] (some (chanOfExtinf (pyStrip "#EXTINF:-1,B".toList))) ∧
    parseLoop ["http://x/b".toList] (some { title := "B" }) =
      { ({ title := "B" } : Channel) with
          url := String.mk (pyStrip "http://x/b".toList) } :: parseLoop [] none ∧
    parseLoop ["http://x/orphan".toList] none = parseLoop [] none :=
  ⟨C1_single_pending_channel.1 "#EXTINF:-1,B".toList [] (some { title := "A" })
      (by decide),
   C1_single_pending_channel.2.1 "http://x/b".toList [] { title := "B" } (by decide),
   C1_single_pending_channel.2.2.1 "http://x/orphan".toList [] (by decide)⟩

/-- C2 counterexample: extracted attribute values are NOT stripped of
surrounding whitespace — `tvg-name=" N "` yields the title `" N "`
(the capture between the quotes, spaces included), not `"N"` as the
claim's "whitespace stripped from each extracted value" requires.
(The claim's mappings for `tvg-id`, `tvg-language` and `tvg-country`
also have no counterpart: the `Channel` class of src/main.py lines
60–73 has only `title`, `logo`, `group` and `url` fields, and
`parse_m3u` searches only the three patterns `tvg-name`, `tvg-logo`,
`group-title`.) -/
theorem C2_counterexample :
    (parse_m3u "#EXTINF:-1 tvg-name=\" N \",x\nhttp://x/1").map Channel.title =
      [" N "] ∧ (" N " : String) ≠ "N" :=
  ⟨by decide, by decide⟩

/-- C2 (amended): the parser extracts only `tvg-name`→title,
`tvg-logo`→logo and `group-title`→group, each by an independent
pattern search (each field is a function of its own pattern's first
capture alone, so extraction does not depend on attribute order or on
other attributes being present); the captured value is the text
between the quotes, taken verbatim (quotes excluded, no whitespace
stripping); `tvg-id`, `tvg-language` and `tvg-country` are not
extracted and the channel record has no such fields.  The claim's
concrete example holds, in the permuted attribute order as well, and a
line with only `tvg-logo` still gets its logo while the title falls
back to the trailing-comma text. -/
theorem C2_attr_extraction :
    (∀ line : List Char, (chanOfExtinf line).logo = reCapture tvgLogoLit line) ∧
    (∀ line : List Char,
      (chanOfExtinf line).group = some ((reCapture groupTitleLit line).getD "")) ∧
    (∀ line : List Char,
      (chanOfExtinf line).title =
        (reCapture tvgNameLit line).getD (String.mk (pyStrip (lastAfterComma line)))) ∧
    parse_m3u "#EXTINF:-1 tvg-logo=\"L\" group-title=\"G\" tvg-name=\"N\",ignored\nhttp://x/1" =
      [{ title := "N", logo := some "L", group := some "G", url := "http://x/1" }] ∧
    parse_m3u "#EXTINF:-1 tvg-name=\"N\" tvg-logo=\"L\" group-title=\"G\",ignored\nhttp://x/1" =
      [{ title := "N", logo := some "L", group := some "G", url := "http://x/1" }] ∧
    parse_m3u "#EXTINF:-1 tvg-logo=\"L\",Fallback\nhttp://x/2" =
      [{ title := "Fallback", logo := some "L", group := some "", url := "http://x/2" }] := by
  refine ⟨?_, ?_, ?_, by decide, by decide, by decide⟩
  · intro line
    rfl
  · intro line
    cases h : reCapture groupTitleLit line <;> simp [chanOfExtinf, h]
  · intro line
    cases h : reCapture tvgNameLit line <;> simp [chanOfExtinf, h]

/-- C3 counterexample: the code performs no retry at all.  With a
network that fails its first two attempts and would succeed on the
third, `/channels` surfaces the first connection error as an HTTP 500
after exactly 1 outbound attempt — not the successful body after 3
attempts that the claim requires. -/
theorem C3_counterexample :
    get_channels_handler "http://u" failTwiceNet =
      (.jsonError 500 "Request error: connection refused", 1) ∧ (1 : Nat) ≠ 3 :=
  ⟨by decide, by decide⟩

/-- C3 (amended): the fetch makes exactly one outbound attempt per
request — there is no retry loop and no backoff.  For every non-empty
URL exactly one attempt is observed, and a transport-level failure on
that attempt is surfaced immediately as an HTTP 500 `Request error`
response. -/
theorem C3_single_attempt :
    ∀ (url : String) (net : Nat → FetchOutcome), url ≠ "" →
      (get_channels_handler url net).2 = 1 ∧
      (∀ msg, net 0 = .reqError msg →
        (get_channels_handler url net).1 =
          .jsonError 500 ("Request error: " ++ msg)) := by
  intro url net h
  constructor
  · simp only [get_channels_handler, if_neg h]
    cases net 0 with
    | reqError m => rfl
    | response s b =>
      by_cases hs : s = 200 <;> simp [hs]
  · intro msg hm
    simp [get_channels_handler, if_neg h, hm]

/-- Witness for C3 (amended) at the fail-twice network: one attempt,
HTTP 500 with the first error's message. -/
theorem C3_witness :
    (get_channels_handler "http://u" failTwiceNet).2 = 1 ∧
    (get_channels_handler "http://u" failTwiceNet).1 =
      .jsonError 500 "Request error: connection refused" := by
  have h := C3_single_attempt "http://u" failTwiceNet (by decide)
  exact ⟨h.1, h.2 "connection refused" rfl⟩

/-- C4: cache round-trip and expiry.  (src/main.py contains no cache;
`cachePut`/`cacheGet` are modelled from §4.4 of the spec.)  `put(k, r)`
followed by `get(k)` strictly within the time-to-live window returns
exactly `r`; once the time-to-live has elapsed, `get(k)` is absent. -/
theorem C4_cache_ttl :
    (∀ (c : CacheState) (k : String) (r : ParseResult) (t ttl now : Nat),
      now < t + ttl → cacheGet (cachePut c k r t) k ttl now = some r) ∧
    (∀ (c : CacheState) (k : String) (r : ParseResult) (t ttl now : Nat),
      t + ttl ≤ now → cacheGet (cachePut c k r t) k ttl now = none) := by
  constructor
  · intro c k r t ttl now h
    simp [cacheGet, cachePut, h]
  · intro c k r t ttl now h
    simp [cacheGet, cachePut, Nat.not_lt.mpr h]

/-- A sample parse result for exercising the cache model. -/
def sampleResult : ParseResult :=
  { channels := [{ title := "B", url := "http://x/b" }], total := 1 }

/-- Witness for C4: insert at time 0 with a 300-unit time-to-live; a
lookup at time 10 returns the stored result, a lookup at time 300 is
absent. -/
theorem C4_witness :
    cacheGet (cachePut cacheEmpty "k" sampleResult 0) "k" 300 10 =
      some sampleResult ∧
    cacheGet (cachePut cacheEmpty "k" sampleResult 0) "k" 300 300 = none :=
  ⟨C4_cache_ttl.1 cacheEmpty "k" sampleResult 0 300 10 (by decide),
   C4_cache_ttl.2 cacheEmpty "k" sampleResult 0 300 300 (by decide)⟩

theorem httpStart_iff (l : List Char) :
    httpStart l = true ↔
      ("http://".toList <+: l ∨ "https://".toList <+: l) := by
  rw [httpStart, Bool.or_eq_true, lsw_iff, lsw_iff]
  exact Iff.rfl

theorem toList_ne_nil_of_ne_empty (s : String) (h : s ≠ "") :
    s.toList ≠ [] := by
  intro e
  exact h (String.ext e)

/-- C5: the content validator returns false on empty input, and on
non-empty text returns true iff the text contains the substring
`#EXTINF`, or contains the substring `#EXTM3U`, or has at least one
line (in the newline-separated decomposition, i.e. at a position
matched by the multiline anchor `^`) beginning with `http://` or
`https://`; the four concrete examples of the claim evaluate as
stated. -/
theorem C5_is_playlist :
    is_m3u_content "" = false ∧
    (∀ content : String, content ≠ "" →
      (is_m3u_content content = true ↔
        ("#EXTINF".toList <:+: content.toList ∨
         "#EXTM3U".toList <:+: content.toList ∨
         ∃ l ∈ splitNl content.toList,
           ("http://".toList <+: l ∨ "https://".toList <+: l)))) ∧
    is_m3u_content "#EXTM3U\n" = true ∧
    is_m3u_content "hello world" = false ∧
    is_m3u_content "http://x/y\n" = true := by
  refine ⟨by decide, ?_, by decide, by decide, by decide⟩
  intro content h
  have hne : content.toList ≠ [] := toList_ne_nil_of_ne_empty content h
  rw [is_m3u_content, if_neg hne, Bool.or_eq_true, Bool.or_eq_true,
    containsSub_iff, containsSub_iff, ← splitNl_any_eq_mlHttp,
    List.any_eq_true]
  simp only [httpStart_iff]
  aesop

/-- Witness for C5 at the header-only playlist. -/
theorem C5_witness :
    is_m3u_content "#EXTM3U\n" = true ↔
      ("#EXTINF".toList <:+: ("#EXTM3U\n" : String).toList ∨
       "#EXTM3U".toList <:+: ("#EXTM3U\n" : String).toList ∨
       ∃ l ∈ splitNl ("#EXTM3U\n" : String).toList,
         ("http://".toList <+: l ∨ "https://".toList <+: l)) :=
  C5_is_playlist.2.1 "#EXTM3U\n" (by decide)

/-- C6 counterexample: the code never checks the URL scheme.  For the
URL `ftp://x` the handler proceeds to the fetch (1 outbound attempt
observed), and the `httpx` transport failure the unsupported scheme
provokes is surfaced as an HTTP 500 `Request error` — not the
pre-fetch HTTP 400 `BadRequest` the claim requires. -/
theorem C6_counterexample :
    get_channels_handler "ftp://x" unsupportedSchemeNet =
      (.jsonError 500 "Request error: Request URL has an unsupported protocol",
        1) ∧
    (500 : Nat) ≠ 400 :=
  ⟨by decide, by decide⟩

/-- C6 (amended): an empty URL is rejected with HTTP 400 (`BadRequest`)
before any outbound fetch attempt, for every network; but no scheme
validation is performed — a URL with a non-http(s) scheme is passed to
the fetch (one attempt made) and the resulting transport error is
reported as HTTP 500, not 400. -/
theorem C6_empty_url_rejected :
    (∀ net : Nat → FetchOutcome,
      get_channels_handler "" net =
        (.httpError 400 "URL parameter is required", 0)) ∧
    (∀ msg : String,
      get_channels_handler "ftp://x" (fun _ => .reqError msg) =
        (.jsonError 500 ("Request error: " ++ msg), 1)) := by
  exact ⟨fun net => rfl, fun msg => rfl⟩

/-- C7 counterexample: a fetch that succeeds with HTTP 200 and a
zero-length body is NOT mapped to any `EmptyUpstreamResponse` failure
with HTTP 500: `/channels` parses the empty body and answers HTTP 200
with zero channels, and `/proxy` rejects it as HTTP 400
`Invalid M3U format` (the empty body fails the validator). -/
theorem C7_counterexample :
    get_channels_handler "http://u" emptyBodyNet = (.okChannels 0 [], 1) ∧
    proxy_handler "http://u" emptyBodyNet =
      (.jsonError 400 "Invalid M3U format", 1) :=
  ⟨by decide, by decide⟩

/-- C7 (amended): an empty fetched body is not a distinct failure kind.
For every non-empty URL and a network answering HTTP 200 with a
zero-length body, `/channels` returns a success result with `total = 0`
and no channels, while `/proxy` returns HTTP 400 `Invalid M3U format`;
neither endpoint produces an HTTP 500. -/
theorem C7_empty_body :
    ∀ (url : String) (net : Nat → FetchOutcome), url ≠ "" →
      net 0 = .response 200 "" →
      get_channels_handler url net = (.okChannels 0 [], 1) ∧
      proxy_handler url net = (.jsonError 400 "Invalid M3U format", 1) := by
  intro url net h hn
  have hv : is_m3u_content "" = false := by decide
  have hp : parse_m3u "" = [] := by decide
  constructor
  · simp [get_channels_handler, if_neg h, hn, hp]
  · simp [proxy_handler, if_neg h, hn, hv]

/-- Witness for C7 (amended). -/
theorem C7_witness :
    get_channels_handler "http://u2" emptyBodyNet = (.okChannels 0 [], 1) ∧
    proxy_handler "http://u2" emptyBodyNet =
      (.jsonError 400 "Invalid M3U format", 1) :=
  C7_empty_body "http://u2" emptyBodyNet (by decide) rfl

/-- C8 counterexample: the trailing-comma fallback strips only
whitespace, not quotes — `#EXTINF:-1,"Q"` yields the title `"Q"` with
the quote characters kept, where the claim's "surrounding quotes …
stripped" requires `Q`. -/
theorem C8_counterexample :
    (parse_m3u "#EXTINF:-1,\"Q\"\nhttp://x/3").map Channel.title = ["\"Q\""] ∧
    ("\"Q\"" : String) ≠ "Q" :=
  ⟨by decide, by decide⟩

/-- C8 (amended): when an `#EXTINF:` line has no `tvg-name` attribute
match, the title is the text after the LAST comma of the line with
surrounding whitespace stripped — quote characters are NOT removed.
The claim's concrete example (an unquoted trailing title) holds. -/
theorem C8_title_fallback :
    (∀ line : List Char, reCapture tvgNameLit line = none →
      (chanOfExtinf line).title = String.mk (pyStrip (lastAfterComma line))) ∧
    parse_m3u "#EXTINF:-1,Channel Name\nhttp://x/2" =
      [{ title := "Channel Name", logo := none, group := some "",
         url := "http://x/2" }] := by
  refine ⟨?_, by decide⟩
  intro line h
  simp [chanOfExtinf, h]

/-- Witness for C8 (amended) on a line without `tvg-name`. -/
theorem C8_witness :
    (chanOfExtinf "#EXTINF:-1,Channel Name".toList).title =
      String.mk (pyStrip (lastAfterComma "#EXTINF:-1,Channel Name".toList)) :=
  C8_title_fallback.1 "#EXTINF:-1,Channel Name".toList (by decide)

/-- C9: output order preserves input order.  The parse loop
instrumented with line indices (identical control flow) tags every
emitted channel with the index of the URL line that completed it:
erasing the tags gives exactly `parseLoop`, and the tags are strictly
increasing along the output — channels appear first-seen-first.  The
reported `total` of the `/channels` result equals the number of emitted
channels. -/
theorem C9_order_and_total :
    (∀ (ls : List (List Char)) (i : Nat) (cur : Option Channel),
      (parseLoopIdx ls i cur).map Prod.snd = parseLoop ls cur ∧
      (parseLoopIdx ls i cur).Pairwise (fun p q => p.1 < q.1)) ∧
    (∀ content : String,
      (mkParseResult content).total = (mkParseResult content).channels.length) :=
  ⟨fun ls i cur => ⟨parseLoopIdx_map_snd ls i cur, parseLoopIdx_pairwise ls i cur⟩,
   fun _ => rfl⟩

/-- C10: every channel record emitted by `parse_m3u` has a `url`
beginning with `http://` or `https://` (hence non-empty) and a `group`
that is never `none` (it defaults to `some ""`); the `logo` field is
`none` exactly when the `tvg-logo` pattern found no match on the
channel's `#EXTINF:` line. -/
theorem C10_record_invariants :
    (∀ (content : String) (ch : Channel), ch ∈ parse_m3u content →
      ("http://".toList <+: ch.url.toList ∨ "https://".toList <+: ch.url.toList) ∧
      ch.url ≠ "" ∧ ch.group ≠ none) ∧
    (∀ line : List Char,
      ((chanOfExtinf line).logo = none ↔ reCapture tvgLogoLit line = none)) := by
  constructor
  · intro content ch hch
    rw [parse_m3u] at hch
    have h := parseLoop_invariant (pySplitlines [] content.toList) none
      (by simp) ch hch
    have hurl : "http://".toList <+: ch.url.toList ∨
        "https://".toList <+: ch.url.toList := by
      have h1 := h.1
      rw [httpStart, Bool.or_eq_true, lsw_iff, lsw_iff] at h1
      simpa [httpPat, httpsPat] using h1
    refine ⟨hurl, ?_, h.2⟩
    intro e
    have hnil : ch.url.toList = [] := by rw [e]; rfl
    rcases hurl with hp | hp <;> rw [hnil] at hp
    · exact absurd (List.prefix_nil.mp hp) (by decide)
    · exact absurd (List.prefix_nil.mp hp) (by decide)
  · intro line
    constructor <;> exact fun h => h

/-- Witness for C10 at a concretely parsed channel. -/
theorem C10_witness :
    (("http://".toList <+: ("http://x/b" : String).toList ∨
      "https://".toList <+: ("http://x/b" : String).toList) ∧
     ("http://x/b" : String) ≠ "" ∧ (some "" : Option String) ≠ none) ∧
    ((chanOfExtinf "#EXTINF:-1,B".toList).logo = none ↔
      reCapture tvgLogoLit "#EXTINF:-1,B".toList = none) :=
  ⟨C10_record_invariants.1 "#EXTINF:-1,B\nhttp://x/b"
      { title := "B", logo := none, group := some "", url := "http://x/b" }
      (by decide),
   C10_record_invariants.2 "#EXTINF:-1,B".toList⟩

